import Mathlib

/-!
Verification of the species-occurrence synchronization and deduplication
pipeline of the marine-species-tracker repository.

The shell orchestration (scripts/sync_all_species.sh, sync_incremental.sh,
sync_full_refresh.sh) and the frontend data model
(frontend/src/types/observation.ts) are embedded from the source files.
The Django management commands they invoke (refresh_obis_data,
sync_gbif_by_oceans, deduplicate_observations, species_stats) are not part
of the repository snapshot; where a claim depends on their behaviour the
definitions are modelled from the spec and marked as such.
-/

namespace MarineSync

/-- The canonical curated row, following the CuratedObservation schema
(spec section 3) and the nullable fields of the frontend Observation type
(frontend/src/types/observation.ts).  Coordinates are carried in
micro-degrees and timestamps in minutes so that the store stays in exact
integer arithmetic. -/
structure CuratedObservation where
  id : Nat
  source : String
  speciesName : String
  lonMicroDeg : Int
  latMicroDeg : Int
  timestampMin : Int
  commonName : Option String
  locationName : Option String
  depthMin : Option Int
  depthMax : Option Int
  bathymetry : Option Int
  temperature : Option Int
  visibility : Option Int
  validated : String
deriving DecidableEq, Repr

/-- One filtered delete, as the inline Django snippets of
scripts/sync_full_refresh.sh run it:
CuratedObservation.objects.filter(source=src).delete(). -/
def deleteWhereSource (src : String) (db : List CuratedObservation) :
    List CuratedObservation :=
  db.filter (fun r => !(r.source == src))

/-- Step 0 of scripts/sync_full_refresh.sh: three successive filtered
deletes, for source 'OBIS', then 'GBIF', then 'BOTH'. -/
def clearPriorData (db : List CuratedObservation) : List CuratedObservation :=
  deleteWhereSource "BOTH" (deleteWhereSource "GBIF" (deleteWhereSource "OBIS" db))

/-- A sample user-contributed row, used in the concrete clearing scenario. -/
def sampleUserRow : CuratedObservation :=
  { id := 0, source := "user", speciesName := "Chelonia mydas"
    lonMicroDeg := 127300000, latMicroDeg := 26200000, timestampMin := 28000000
    commonName := some "Green sea turtle", locationName := some "Okinawa"
    depthMin := some 5, depthMax := some 12, bathymetry := none
    temperature := some 24, visibility := some 20, validated := "validated" }

/-- The i-th sample OBIS row of the concrete clearing scenario. -/
def sampleObisRow (i : Nat) : CuratedObservation :=
  { id := 100 + i, source := "OBIS", speciesName := "Chelonia mydas"
    lonMicroDeg := 140000000 + i, latMicroDeg := 35000000, timestampMin := 28600000
    commonName := none, locationName := none
    depthMin := none, depthMax := none, bathymetry := none
    temperature := none, visibility := none, validated := "pending" }

/-- A curated store holding 1 user row and 40 OBIS rows (the spec's
full-mode clearing scenario). -/
def scenarioStore : List CuratedObservation :=
  sampleUserRow :: (List.range 40).map sampleObisRow

/- ------------------------------------------------------------------ -/
/- The shell orchestration: scripts/sync_all_species.sh,
   scripts/sync_incremental.sh and scripts/sync_full_refresh.sh.        -/
/- ------------------------------------------------------------------ -/

/-- One external command issued by the sync shell scripts.  The three
clear steps are the inline deletes of sync_full_refresh.sh Step 0;
fetchObis stands for `manage.py refresh_obis_data`, fetchGbifYear y for
`manage.py sync_gbif_by_oceans --year y`, dedup for
`manage.py deduplicate_observations`, stats for `manage.py species_stats`. -/
inductive Step where
  | clearObis
  | clearGbif
  | clearBoth
  | fetchObis
  | fetchGbifYear (year : Nat)
  | dedup
  | stats
deriving DecidableEq, Repr

/-- Sequential execution of a command list under `set -e` (the first
line of every sync script): each command runs in order; the first failing
command terminates the script with exit code 1, and no later command
runs.  Returns the list of commands that actually ran and the script's
exit code. -/
def runSetE (ok : Step → Bool) : List Step → List Step × Nat
  | [] => ([], 0)
  | s :: rest =>
    if ok s then
      let r := runSetE ok rest
      (s :: r.1, r.2)
    else
      ([s], 1)

/-- The command sequence of scripts/sync_incremental.sh: OBIS sync,
GBIF sync for year 2024, deduplicate, stats. -/
def incrementalSteps : List Step :=
  [Step.fetchObis, Step.fetchGbifYear 2024, Step.dedup, Step.stats]

/-- The command sequence of scripts/sync_full_refresh.sh after the
confirmation prompt: the three clearing deletes, the full OBIS sync, one
GBIF sync per year from YEAR_START=2015 to YEAR_END=2026, deduplicate,
stats. -/
def fullRefreshSteps : List Step :=
  [Step.clearObis, Step.clearGbif, Step.clearBoth, Step.fetchObis] ++
    (List.range 12).map (fun i => Step.fetchGbifYear (2015 + i)) ++
    [Step.dedup, Step.stats]

/-- scripts/sync_full_refresh.sh: the interactive confirmation guard.
The prompt's answer is compared against the exact string "yes"; any other
answer prints an abort message and exits with status 1 before any command
of the refresh has run. -/
def fullRefreshRun (confirm : String) (ok : Step → Bool) : List Step × Nat :=
  if confirm == "yes" then runSetE ok fullRefreshSteps else ([], 1)

/-- scripts/sync_all_species.sh: checks that docker-compose exists and the
backend container is up (exit 1 otherwise), defaults the mode argument to
"incremental", rejects any mode other than "incremental" or "full" with
exit 1, and dispatches to the incremental or full script. -/
def sync_all_species (dockerAvailable backendUp : Bool) (arg : Option String)
    (confirm : String) (ok : Step → Bool) : List Step × Nat :=
  if !dockerAvailable then ([], 1)
  else if !backendUp then ([], 1)
  else
    let m := arg.getD "incremental"
    if !(m == "incremental" || m == "full") then ([], 1)
    else if m == "incremental" then runSetE ok incrementalSteps
    else fullRefreshRun confirm ok

/-- An external-command outcome in which the OBIS fetch fails and every
other command succeeds. -/
def okObisFails : Step → Bool
  | Step.fetchObis => false
  | _ => true

/-- An external-command outcome in which the GBIF fetch for 2024 fails and
every other command succeeds. -/
def okGbifFails : Step → Bool
  | Step.fetchGbifYear _ => false
  | _ => true

/-- The pipeline stages named by the spec's orchestrator state machine
(spec section 4.7). -/
inductive Stage where
  | ClearingPriorData
  | FetchingOBIS
  | FetchingGBIF
  | Enriching
  | Deduplicating
  | Reporting
deriving DecidableEq, Repr

/-- The stage each shell command belongs to. -/
def stageOf : Step → Stage
  | Step.clearObis => Stage.ClearingPriorData
  | Step.clearGbif => Stage.ClearingPriorData
  | Step.clearBoth => Stage.ClearingPriorData
  | Step.fetchObis => Stage.FetchingOBIS
  | Step.fetchGbifYear _ => Stage.FetchingGBIF
  | Step.dedup => Stage.Deduplicating
  | Step.stats => Stage.Reporting

/-- Collapses adjacent repeats, turning a per-command stage list into the
sequence of distinct stages the run passes through. -/
def collapseStages : List Stage → List Stage
  | [] => []
  | [a] => [a]
  | a :: b :: rest =>
    if a == b then collapseStages (b :: rest) else a :: collapseStages (b :: rest)

/-- The command lines of scripts/sync_incremental.sh, each as the
management command name with its argument list, exactly as the script
passes them. -/
def sync_incremental_commands : List (String × List String) :=
  [("refresh_obis_data",
     ["--mode", "incremental", "--start-date", "2024-01-01",
      "--end-date", "2024-12-31", "--max-pages", "10"]),
   ("sync_gbif_by_oceans", ["--year", "2024", "--limit", "200"]),
   ("deduplicate_observations", ["--prefer", "OBIS"]),
   ("species_stats", [])]

/-- The configuration variable GBIF_MAX_RECORDS of
scripts/sync_incremental.sh. -/
def GBIF_MAX_RECORDS : Nat := 50000

/-- The log banner echoed by Step 2 of scripts/sync_incremental.sh; the
Max Records line is the only place GBIF_MAX_RECORDS is used. -/
def sync_incremental_gbif_banner : List String :=
  ["   Year Filter: 2024",
   "   Strategy: Ocean-based polygons (8 regions)",
   "   Max Records: " ++ toString GBIF_MAX_RECORDS]

/-- The source union of the frontend Observation type
(frontend/src/types/observation.ts line 22), value for value:
"user" | "obis" | "GBIF" | "BOTH" | "other". -/
def tsObservationSourceValues : List String :=
  ["user", "obis", "GBIF", "BOTH", "other"]

/-- The five source values the spec's data model names (spec section 3):
OBIS, GBIF, BOTH, user, other. -/
def specSourceValues : List String :=
  ["OBIS", "GBIF", "BOTH", "user", "other"]

/-- A curated row carrying the lowercase source value "obis", which the
frontend Observation type permits. -/
def lowercaseObisRow : CuratedObservation :=
  { sampleObisRow 0 with source := "obis" }

/- ------------------------------------------------------------------ -/
/- The Deduplicator.  The management command deduplicate_observations
   that the scripts invoke is not part of the repository snapshot, so the
   component is modelled from the spec (section 4.6).                   -/
/- ------------------------------------------------------------------ -/

/-- Modelled from the spec: the spatial matching tolerance of the
Deduplicator, in micro-degrees per axis (about 1 km of latitude).  The
deduplicate_observations management command is not in the repository;
the spec leaves the concrete threshold to the implementer (section 9)
and suggests about 1 km. -/
def SPATIAL_TOLERANCE_MICRODEG : Nat := 10000

/-- Modelled from the spec: the temporal matching tolerance of the
Deduplicator, in minutes (24 hours, the spec's suggested threshold). -/
def TEMPORAL_TOLERANCE_MIN : Nat := 1440

/-- ASCII lower-casing of one character code: uppercase letters shift
into lowercase, everything else is unchanged. -/
def lowerCode (n : Nat) : Nat := if 65 ≤ n ∧ n ≤ 90 then n + 32 else n

/-- The case-folded form of a name: its character codes, lower-cased. -/
def caseFold (s : String) : List Nat :=
  s.data.map (fun c => lowerCode c.toNat)

/-- Modelled from the spec: the Deduplicator's matching rule (section
4.6).  Two records match when their species names are equal
case-insensitively, their coordinates are within the spatial tolerance,
their timestamps are within the temporal tolerance, and they come from
different providers (one OBIS, one GBIF). -/
def isMatch (a b : CuratedObservation) : Bool :=
  decide (caseFold a.speciesName = caseFold b.speciesName) &&
  decide ((a.lonMicroDeg - b.lonMicroDeg).natAbs ≤ SPATIAL_TOLERANCE_MICRODEG) &&
  decide ((a.latMicroDeg - b.latMicroDeg).natAbs ≤ SPATIAL_TOLERANCE_MICRODEG) &&
  decide ((a.timestampMin - b.timestampMin).natAbs ≤ TEMPORAL_TOLERANCE_MIN) &&
  ((a.source == "OBIS" && b.source == "GBIF") ||
   (a.source == "GBIF" && b.source == "OBIS"))

/-- The preferred source's value wins; its null is backfilled from the
other source. -/
def mergeField {α : Type} (p o : Option α) : Option α :=
  match p with
  | some v => some v
  | none => o

/-- Modelled from the spec: the merge of a matched pair (section 4.6).
`p` is the record from the preferred source, `o` the other.  The merged
record carries source BOTH; conflicting attributes take the preferred
record's value, and attributes that are null on the preferred record are
backfilled from the other record.  The identifier anchors on the
earliest-ingested of the pair. -/
def mergeObs (p o : CuratedObservation) : CuratedObservation :=
  { id := min p.id o.id
    source := "BOTH"
    speciesName := p.speciesName
    lonMicroDeg := p.lonMicroDeg
    latMicroDeg := p.latMicroDeg
    timestampMin := p.timestampMin
    commonName := mergeField p.commonName o.commonName
    locationName := mergeField p.locationName o.locationName
    depthMin := mergeField p.depthMin o.depthMin
    depthMax := mergeField p.depthMax o.depthMax
    bathymetry := mergeField p.bathymetry o.bathymetry
    temperature := mergeField p.temperature o.temperature
    visibility := mergeField p.visibility o.visibility
    validated := p.validated }

/-- Finds the first record of the list matching `a`; returns it together
with the list minus that record. -/
def findMatch (a : CuratedObservation) :
    List CuratedObservation →
      Option (CuratedObservation × List CuratedObservation)
  | [] => none
  | b :: rest =>
    if isMatch a b then some (b, rest)
    else
      match findMatch a rest with
      | some (m, rest2) => some (m, b :: rest2)
      | none => none

/-- Modelled from the spec: one deduplication sweep over the non-user
rows, held in ingestion order.  The earliest-ingested unprocessed record
anchors each merge decision (section 4.6); when it matches a record of
the other provider the pair collapses into one merged BOTH record, the
record from the source named by `prefer` winning conflicts.  The fuel
argument bounds the recursion and starts at the list's length, which
never runs out because each step consumes at least one record. -/
def dedupPassAux (prefer : String) :
    Nat → List CuratedObservation → List CuratedObservation
  | 0, l => l
  | _ + 1, [] => []
  | n + 1, a :: rest =>
    match findMatch a rest with
    | some (b, rest2) =>
      (if a.source == prefer then mergeObs a b else mergeObs b a) ::
        dedupPassAux prefer n rest2
    | none => a :: dedupPassAux prefer n rest

/-- Modelled from the spec: the Deduplicator's sweep, applied to a list
with full fuel. -/
def dedupPass (prefer : String) (l : List CuratedObservation) :
    List CuratedObservation :=
  dedupPassAux prefer l.length l

/-- Modelled from the spec: the deduplicate_observations command.  It is
given the whole curated store; user-contributed rows are never touched,
merged or deleted (spec section 3), and the deduplication sweep runs over
the non-user rows only (section 4.6). -/
def deduplicate_observations (prefer : String)
    (db : List CuratedObservation) : List CuratedObservation :=
  db.filter (fun r => r.source == "user") ++
    dedupPass prefer (db.filter (fun r => !(r.source == "user")))

/- ------------------------------------------------------------------ -/
/- The Normalizer.  The normalization code lives inside the management
   commands, which are not part of the repository snapshot, so the
   component is modelled from the spec (section 4.5), against the
   nullable field types of frontend/src/types/observation.ts.           -/
/- ------------------------------------------------------------------ -/

/-- A raw occurrence record as returned by OBIS or GBIF: an arbitrary
key/value payload, never persisted verbatim (spec section 3). -/
structure RawOccurrenceRecord where
  payload : List (String × String)
deriving DecidableEq, Repr

/-- The normalized CuratedObservation candidate the Normalizer emits;
every optional environmental field is nullable, as in
frontend/src/types/observation.ts. -/
structure NormalizedObservation where
  speciesName : String
  lonMicroDeg : Int
  latMicroDeg : Int
  timestampMin : Int
  commonName : Option String
  locationName : Option String
  depthMin : Option Int
  depthMax : Option Int
  bathymetry : Option Int
  temperature : Option Int
  visibility : Option Int
deriving DecidableEq, Repr

/-- The numeric value of one decimal digit character, none for anything
else. -/
def digitVal (c : Char) : Option Nat :=
  if 48 ≤ c.toNat ∧ c.toNat ≤ 57 then some (c.toNat - 48) else none

/-- Parses a non-empty all-digit character list as a natural number. -/
def parseDigits : List Char → Option Nat
  | [] => none
  | l =>
    l.foldl
      (fun acc c => acc.bind (fun a => (digitVal c).map (fun d => 10 * a + d)))
      (some 0)

/-- Parses an optionally negated decimal integer; anything else is none. -/
def parseIntString (s : String) : Option Int :=
  match s.data with
  | '-' :: rest => (parseDigits rest).map (fun n => -(n : Int))
  | l => (parseDigits l).map (fun n => (n : Int))

/-- An optional numeric payload field: absent keys map to none, never to
a zero or empty default. -/
def optionalNumField (r : RawOccurrenceRecord) (key : String) : Option Int :=
  (r.payload.lookup key).bind parseIntString

/-- Modelled from the spec: the Normalizer (section 4.5).  A record whose
coordinates or timestamp are missing or unparseable is rejected (none);
otherwise each optional field is taken from the payload when present and
parseable, and absence maps to null. -/
def normalizeRecord (r : RawOccurrenceRecord) : Option NormalizedObservation :=
  match r.payload.lookup "speciesName",
        (r.payload.lookup "lon").bind parseIntString,
        (r.payload.lookup "lat").bind parseIntString,
        (r.payload.lookup "timestamp").bind parseIntString with
  | some sp, some lon, some lat, some ts =>
    some { speciesName := sp
           lonMicroDeg := lon
           latMicroDeg := lat
           timestampMin := ts
           commonName := r.payload.lookup "commonName"
           locationName := r.payload.lookup "locationName"
           depthMin := optionalNumField r "depthMin"
           depthMax := optionalNumField r "depthMax"
           bathymetry := optionalNumField r "bathymetry"
           temperature := optionalNumField r "temperature"
           visibility := optionalNumField r "visibility" }
  | _, _, _, _ => none

/-- A raw payload of the spec's normalization scenario: depthMin absent,
required fields present. -/
def rawRecordNoDepth : RawOccurrenceRecord :=
  { payload := [("speciesName", "Chelonia mydas"),
                ("lon", "140000000"), ("lat", "35000000"),
                ("timestamp", "28638600"), ("temperature", "24")] }

/-- The OBIS record of the spec's dedup scenario (section 8):
Chelonia mydas at (35.0, 140.0), 2024-06-01T10:00, with a null
common name to exercise backfilling. -/
def obisScenarioRecord : CuratedObservation :=
  { id := 1, source := "OBIS", speciesName := "Chelonia mydas"
    lonMicroDeg := 140000000, latMicroDeg := 35000000
    timestampMin := 28638600
    commonName := none, locationName := none
    depthMin := some 3, depthMax := none, bathymetry := none
    temperature := none, visibility := none, validated := "pending" }

/-- The GBIF record of the spec's dedup scenario (section 8):
the same sighting at (35.0003, 140.0002), five minutes later. -/
def gbifScenarioRecord : CuratedObservation :=
  { id := 2, source := "GBIF", speciesName := "CHELONIA MYDAS"
    lonMicroDeg := 140000200, latMicroDeg := 35000300
    timestampMin := 28638605
    commonName := some "Green sea turtle", locationName := some "North Pacific"
    depthMin := some 7, depthMax := some 12, bathymetry := none
    temperature := some 22, visibility := none, validated := "pending" }

/-- The normalization of rawRecordNoDepth, written out. -/
def normalizedNoDepth : NormalizedObservation :=
  { speciesName := "Chelonia mydas"
    lonMicroDeg := 140000000, latMicroDeg := 35000000
    timestampMin := 28638600
    commonName := none, locationName := none
    depthMin := none, depthMax := none, bathymetry := none
    temperature := some 24, visibility := none }

/- ------------------------------------------------------------------ -/
/- Helper lemmas.                                                      -/
/- ------------------------------------------------------------------ -/

theorem findMatch_length (a : CuratedObservation) :
    ∀ (l rest2 : List CuratedObservation) (b : CuratedObservation),
      findMatch a l = some (b, rest2) → rest2.length + 1 = l.length := by
  intro l
  induction l with
  | nil => intro rest2 b h; simp [findMatch] at h
  | cons c cs ih =>
    intro rest2 b h
    simp only [findMatch] at h
    split at h
    · rw [Option.some.injEq, Prod.mk.injEq] at h
      obtain ⟨hb, hr⟩ := h
      subst hr
      rfl
    · split at h
      · rename_i m r2 heq
        rw [Option.some.injEq, Prod.mk.injEq] at h
        obtain ⟨hb, hr⟩ := h
        subst hr
        have h2 := ih r2 m heq
        simp only [List.length_cons]
        omega
      · cases h

theorem findMatch_sub (a : CuratedObservation) :
    ∀ (l rest2 : List CuratedObservation) (b : CuratedObservation),
      findMatch a l = some (b, rest2) → ∀ c ∈ rest2, c ∈ l := by
  intro l
  induction l with
  | nil => intro rest2 b h; simp [findMatch] at h
  | cons c cs ih =>
    intro rest2 b h
    simp only [findMatch] at h
    split at h
    · rw [Option.some.injEq, Prod.mk.injEq] at h
      obtain ⟨hb, hr⟩ := h
      subst hr
      intro d hd
      exact List.mem_cons_of_mem c hd
    · split at h
      · rename_i m r2 heq
        rw [Option.some.injEq, Prod.mk.injEq] at h
        obtain ⟨hb, hr⟩ := h
        subst hr
        intro d hd
        rcases List.mem_cons.mp hd with hdc | hd2
        · exact hdc ▸ List.mem_cons_self c cs
        · exact List.mem_cons_of_mem c (ih r2 m heq d hd2)
      · cases h

theorem isMatch_false_of_findMatch_none (a : CuratedObservation) :
    ∀ l : List CuratedObservation, findMatch a l = none →
      ∀ b ∈ l, isMatch a b = false := by
  intro l
  induction l with
  | nil => intro _ b hb; cases hb
  | cons c cs ih =>
    intro h b hb
    simp only [findMatch] at h
    split at h
    · cases h
    · rename_i hnm
      rcases List.mem_cons.mp hb with hbc | hb2
      · subst hbc
        exact Bool.eq_false_iff.mpr hnm
      · cases heq : findMatch a cs with
        | some p => rw [heq] at h; cases h
        | none => exact ih heq b hb2

theorem findMatch_none_of_all (a : CuratedObservation) :
    ∀ l : List CuratedObservation, (∀ b ∈ l, isMatch a b = false) →
      findMatch a l = none := by
  intro l
  induction l with
  | nil => intro _; rfl
  | cons c cs ih =>
    intro h
    have hc : isMatch a c = false := h c (List.mem_cons_self c cs)
    have hcs : findMatch a cs = none :=
      ih (fun b hb => h b (List.mem_cons_of_mem c hb))
    simp [findMatch, hc, hcs]

theorem mergeObs_source_both (p o : CuratedObservation) :
    (mergeObs p o).source = "BOTH" := rfl

theorem isMatch_false_of_source_both (a b : CuratedObservation)
    (h : a.source = "BOTH") : isMatch a b = false := by
  have h1 : (("BOTH" : String) == "OBIS") = false := by decide
  have h2 : (("BOTH" : String) == "GBIF") = false := by decide
  simp [isMatch, h, h1, h2]

theorem isMatch_false_of_target_both (a b : CuratedObservation)
    (h : b.source = "BOTH") : isMatch a b = false := by
  have h1 : (("BOTH" : String) == "OBIS") = false := by decide
  have h2 : (("BOTH" : String) == "GBIF") = false := by decide
  simp [isMatch, h, h1, h2]

theorem mem_dedupPassAux (prefer : String) :
    ∀ (n : Nat) (l : List CuratedObservation) (y : CuratedObservation),
      y ∈ dedupPassAux prefer n l → y.source = "BOTH" ∨ y ∈ l := by
  intro n
  induction n with
  | zero => intro l y h; exact Or.inr h
  | succ n ih =>
    intro l y h
    cases l with
    | nil => simp [dedupPassAux] at h
    | cons a rest =>
      simp only [dedupPassAux] at h
      cases hfm : findMatch a rest with
      | some p =>
        obtain ⟨b, rest2⟩ := p
        rw [hfm] at h
        simp only [List.mem_cons] at h
        rcases h with h | h
        · left
          subst h
          split <;> rfl
        · rcases ih rest2 y h with hb | hm
          · exact Or.inl hb
          · exact Or.inr
              (List.mem_cons_of_mem a (findMatch_sub a rest rest2 b hfm y hm))
      | none =>
        rw [hfm] at h
        simp only [List.mem_cons] at h
        rcases h with h | h
        · exact Or.inr (h ▸ List.mem_cons_self a rest)
        · rcases ih rest y h with hb | hm
          · exact Or.inl hb
          · exact Or.inr (List.mem_cons_of_mem a hm)

theorem pairwise_dedupPassAux (prefer : String) :
    ∀ (n : Nat) (l : List CuratedObservation), l.length ≤ n →
      (dedupPassAux prefer n l).Pairwise (fun x y => isMatch x y = false) := by
  intro n
  induction n with
  | zero =>
    intro l hl
    have : l = [] := List.length_eq_zero.mp (Nat.le_zero.mp hl)
    subst this
    simp [dedupPassAux]
  | succ n ih =>
    intro l hl
    cases l with
    | nil => simp [dedupPassAux]
    | cons a rest =>
      simp only [dedupPassAux]
      cases hfm : findMatch a rest with
      | some p =>
        obtain ⟨b, rest2⟩ := p
        have hlen := findMatch_length a rest rest2 b hfm
        have hr2 : rest2.length ≤ n := by
          simp only [List.length_cons] at hl
          omega
        refine List.pairwise_cons.mpr ⟨?_, ih rest2 hr2⟩
        intro y _
        apply isMatch_false_of_source_both
        split <;> rfl
      | none =>
        have hr : rest.length ≤ n := by
          simp only [List.length_cons] at hl
          omega
        refine List.pairwise_cons.mpr ⟨?_, ih rest hr⟩
        intro y hy
        rcases mem_dedupPassAux prefer n rest y hy with hb | hm
        · exact isMatch_false_of_target_both a y hb
        · exact isMatch_false_of_findMatch_none a rest hfm y hm

theorem dedupPassAux_eq_of_pairwise (prefer : String) :
    ∀ (n : Nat) (l : List CuratedObservation),
      l.Pairwise (fun x y => isMatch x y = false) →
      dedupPassAux prefer n l = l := by
  intro n
  induction n with
  | zero => intro l _; rfl
  | succ n ih =>
    intro l hp
    cases l with
    | nil => rfl
    | cons a rest =>
      obtain ⟨hhead, htail⟩ := List.pairwise_cons.mp hp
      have hfm : findMatch a rest = none := findMatch_none_of_all a rest hhead
      simp only [dedupPassAux, hfm]
      rw [ih rest htail]

theorem dedupPass_idem (prefer : String) (l : List CuratedObservation) :
    dedupPass prefer (dedupPass prefer l) = dedupPass prefer l :=
  dedupPassAux_eq_of_pairwise prefer _ _
    (pairwise_dedupPassAux prefer l.length l le_rfl)

theorem mergeField_spec {α : Type} (p o : Option α) :
    (p = none → mergeField p o = o) ∧ (p ≠ none → mergeField p o = p) := by
  cases p <;> simp [mergeField]

theorem lookup_none_of_key_absent {β : Type} [DecidableEq β] :
    ∀ (l : List (String × β)) (k : String),
      k ∉ l.map Prod.fst → l.lookup k = none := by
  intro l
  induction l with
  | nil => intro k _; rfl
  | cons p es ih =>
    intro k hk
    obtain ⟨key, val⟩ := p
    simp only [List.map_cons, List.mem_cons] at hk
    push_neg at hk
    obtain ⟨h1, h2⟩ := hk
    have hb : (k == key) = false := beq_eq_false_iff_ne.mpr h1
    simp only [List.lookup, hb]
    exact ih k h2

theorem runSetE_exit_zero (ok : Step → Bool) :
    ∀ l : List Step, (runSetE ok l).2 = 0 ↔ ∀ s ∈ l, ok s = true := by
  intro l
  induction l with
  | nil => simp [runSetE]
  | cons s rest ih =>
    by_cases h : ok s = true
    · simp [runSetE, h, ih]
    · constructor
      · intro h0
        simp [runSetE, h] at h0
      · intro hall
        exact absurd (hall s (List.mem_cons_self s rest)) h

theorem runSetE_executes_in_order (ok : Step → Bool) :
    ∀ l : List Step, ∃ k, (runSetE ok l).1 = l.take k := by
  intro l
  induction l with
  | nil => exact ⟨0, rfl⟩
  | cons s rest ih =>
    by_cases h : ok s = true
    · obtain ⟨k, hk⟩ := ih
      exact ⟨k + 1, by simp [runSetE, h, hk]⟩
    · exact ⟨1, by simp [runSetE, h]⟩

/- ------------------------------------------------------------------ -/
/- The claims.                                                         -/
/- ------------------------------------------------------------------ -/

/-- C1: the full-mode clearing step (Step 0 of sync_full_refresh.sh)
deletes exactly the rows whose source is OBIS, GBIF or BOTH, and leaves
every row with source user unchanged; in particular, from a store with 1
user row and 40 OBIS rows, the 40 OBIS rows are gone and the user row
remains. -/
theorem full_clear_deletes_exactly_pipeline_rows (db : List CuratedObservation) :
    (∀ r : CuratedObservation,
       r ∈ clearPriorData db ↔
         r ∈ db ∧ r.source ≠ "OBIS" ∧ r.source ≠ "GBIF" ∧ r.source ≠ "BOTH") ∧
    (∀ r ∈ db, r.source = "user" → r ∈ clearPriorData db) ∧
    clearPriorData scenarioStore = [sampleUserRow] := by
  have hmem : ∀ r : CuratedObservation,
      r ∈ clearPriorData db ↔
        r ∈ db ∧ r.source ≠ "OBIS" ∧ r.source ≠ "GBIF" ∧ r.source ≠ "BOTH" := by
    intro r
    simp only [clearPriorData, deleteWhereSource, List.mem_filter,
      Bool.not_eq_eq_eq_not, Bool.not_true, beq_eq_false_iff_ne, ne_eq]
    tauto
  refine ⟨hmem, ?_, by decide⟩
  intro r hr hu
  refine (hmem r).mpr ⟨hr, ?_, ?_, ?_⟩ <;> rw [hu] <;> decide

/-- C2: a cross-source near-duplicate pair (one OBIS record, one GBIF
record, species equal case-insensitively, coordinates and timestamps
within tolerance) deduplicates with prefer OBIS to exactly one record
with source BOTH whose conflicting attributes take the OBIS value and
whose null OBIS attributes are backfilled from the GBIF record. -/
theorem cross_source_pair_merges_to_both (a b : CuratedObservation)
    (ha : a.source = "OBIS") (hb : b.source = "GBIF")
    (hsp : caseFold a.speciesName = caseFold b.speciesName)
    (hlon : (a.lonMicroDeg - b.lonMicroDeg).natAbs ≤ SPATIAL_TOLERANCE_MICRODEG)
    (hlat : (a.latMicroDeg - b.latMicroDeg).natAbs ≤ SPATIAL_TOLERANCE_MICRODEG)
    (ht : (a.timestampMin - b.timestampMin).natAbs ≤ TEMPORAL_TOLERANCE_MIN) :
    deduplicate_observations "OBIS" [a, b] = [mergeObs a b] ∧
    deduplicate_observations "OBIS" [b, a] = [mergeObs a b] ∧
    (mergeObs a b).source = "BOTH" ∧
    (mergeObs a b).speciesName = a.speciesName ∧
    (mergeObs a b).lonMicroDeg = a.lonMicroDeg ∧
    (mergeObs a b).latMicroDeg = a.latMicroDeg ∧
    (mergeObs a b).timestampMin = a.timestampMin ∧
    ((a.commonName = none → (mergeObs a b).commonName = b.commonName) ∧
     (a.commonName ≠ none → (mergeObs a b).commonName = a.commonName)) ∧
    ((a.locationName = none → (mergeObs a b).locationName = b.locationName) ∧
     (a.locationName ≠ none → (mergeObs a b).locationName = a.locationName)) ∧
    ((a.depthMin = none → (mergeObs a b).depthMin = b.depthMin) ∧
     (a.depthMin ≠ none → (mergeObs a b).depthMin = a.depthMin)) ∧
    ((a.depthMax = none → (mergeObs a b).depthMax = b.depthMax) ∧
     (a.depthMax ≠ none → (mergeObs a b).depthMax = a.depthMax)) ∧
    ((a.bathymetry = none → (mergeObs a b).bathymetry = b.bathymetry) ∧
     (a.bathymetry ≠ none → (mergeObs a b).bathymetry = a.bathymetry)) ∧
    ((a.temperature = none → (mergeObs a b).temperature = b.temperature) ∧
     (a.temperature ≠ none → (mergeObs a b).temperature = a.temperature)) ∧
    ((a.visibility = none → (mergeObs a b).visibility = b.visibility) ∧
     (a.visibility ≠ none → (mergeObs a b).visibility = a.visibility)) := by
  have hm : isMatch a b = true := by
    simp [isMatch, hsp, hlon, hlat, ht, ha, hb]
  have hm2 : isMatch b a = true := by
    have hlon2 : (b.lonMicroDeg - a.lonMicroDeg).natAbs ≤
        SPATIAL_TOLERANCE_MICRODEG := by omega
    have hlat2 : (b.latMicroDeg - a.latMicroDeg).natAbs ≤
        SPATIAL_TOLERANCE_MICRODEG := by omega
    have ht2 : (b.timestampMin - a.timestampMin).natAbs ≤
        TEMPORAL_TOLERANCE_MIN := by omega
    simp [isMatch, hsp.symm, hlon2, hlat2, ht2, ha, hb]
  have huser_a : (a.source == "user") = false := by rw [ha]; decide
  have huser_b : (b.source == "user") = false := by rw [hb]; decide
  have hpref_a : (a.source == "OBIS") = true := by rw [ha]; decide
  have hpref_b : (b.source == "OBIS") = false := by rw [hb]; decide
  have h1 : deduplicate_observations "OBIS" [a, b] = [mergeObs a b] := by
    simp [deduplicate_observations, dedupPass, dedupPassAux, findMatch,
      hm, huser_a, huser_b, hpref_a]
  have h2 : deduplicate_observations "OBIS" [b, a] = [mergeObs a b] := by
    simp [deduplicate_observations, dedupPass, dedupPassAux, findMatch,
      hm2, huser_a, huser_b, hpref_b]
  exact ⟨h1, h2, rfl, rfl, rfl, rfl, rfl,
    mergeField_spec a.commonName b.commonName,
    mergeField_spec a.locationName b.locationName,
    mergeField_spec a.depthMin b.depthMin,
    mergeField_spec a.depthMax b.depthMax,
    mergeField_spec a.bathymetry b.bathymetry,
    mergeField_spec a.temperature b.temperature,
    mergeField_spec a.visibility b.visibility⟩

/-- C2 witness: the spec's Chelonia mydas scenario, at concrete records. -/
theorem cross_source_pair_merges_to_both_witness :
    deduplicate_observations "OBIS" [obisScenarioRecord, gbifScenarioRecord] =
      [mergeObs obisScenarioRecord gbifScenarioRecord] ∧
    (mergeObs obisScenarioRecord gbifScenarioRecord).source = "BOTH" ∧
    (mergeObs obisScenarioRecord gbifScenarioRecord).commonName =
      some "Green sea turtle" := by
  have h := cross_source_pair_merges_to_both obisScenarioRecord gbifScenarioRecord
    rfl rfl (by decide) (by decide) (by decide) (by decide)
  exact ⟨h.1, h.2.2.1, by decide⟩

/-- C3: the deduplication operation is idempotent: a second run on the
output of a first run changes nothing. -/
theorem deduplication_idempotent (prefer : String)
    (db : List CuratedObservation) :
    deduplicate_observations prefer (deduplicate_observations prefer db) =
      deduplicate_observations prefer db := by
  have hDuser : ∀ y ∈ dedupPass prefer
      (db.filter (fun r => !(r.source == "user"))),
      (y.source == "user") = false := by
    intro y hy
    rcases mem_dedupPassAux prefer _ _ y hy with hbth | hmm
    · rw [hbth]; decide
    · have := (List.mem_filter.mp hmm).2
      simpa using this
  have hUuser : ∀ y ∈ db.filter (fun r => r.source == "user"),
      (y.source == "user") = true := by
    intro y hy
    exact (List.mem_filter.mp hy).2
  have key : ∀ (U P : List CuratedObservation),
      (∀ y ∈ U, (y.source == "user") = true) →
      (∀ y ∈ P, (y.source == "user") = false) →
      deduplicate_observations prefer (U ++ P) =
        U ++ dedupPass prefer P := by
    intro U P hU hP
    rw [deduplicate_observations, List.filter_append, List.filter_append]
    rw [List.filter_eq_self.mpr hU]
    rw [List.filter_eq_nil_iff.mpr (fun y hy => by simp [hP y hy])]
    rw [List.filter_eq_nil_iff.mpr (fun y hy => by simp [hU y hy])]
    rw [List.filter_eq_self.mpr (fun y hy => by simp [hP y hy])]
    rw [List.append_nil, List.nil_append]
  calc deduplicate_observations prefer (deduplicate_observations prefer db)
      = deduplicate_observations prefer
          (db.filter (fun r => r.source == "user") ++
           dedupPass prefer (db.filter (fun r => !(r.source == "user")))) := rfl
    _ = db.filter (fun r => r.source == "user") ++
          dedupPass prefer (dedupPass prefer
            (db.filter (fun r => !(r.source == "user")))) :=
        key _ _ hUuser hDuser
    _ = deduplicate_observations prefer db := by
        rw [dedupPass_idem]
        rfl

/-- C4 counterexample: under set -e, a failing OBIS fetch terminates
sync_incremental.sh at once; the GBIF fetch, the deduplication and the
statistics steps never run, contradicting the claim that the pipeline
proceeds with whatever data succeeded. -/
theorem obis_failure_aborts_run_counterexample :
    runSetE okObisFails incrementalSteps = ([Step.fetchObis], 1) ∧
    Step.dedup ∉ (runSetE okObisFails incrementalSteps).1 ∧
    Step.stats ∉ (runSetE okObisFails incrementalSteps).1 ∧
    Step.fetchGbifYear 2024 ∉ (runSetE okObisFails incrementalSteps).1 := by
  decide

/-- C4 amended: because every sync script begins with set -e, a fetch
failure aborts the run immediately: after a failed OBIS fetch nothing
else runs, and after a failed GBIF fetch deduplication and statistics do
not run. -/
theorem fetch_failure_aborts_incremental_run (ok : Step → Bool) :
    (ok Step.fetchObis = false →
       runSetE ok incrementalSteps = ([Step.fetchObis], 1)) ∧
    (ok Step.fetchObis = true → ok (Step.fetchGbifYear 2024) = false →
       runSetE ok incrementalSteps =
         ([Step.fetchObis, Step.fetchGbifYear 2024], 1)) := by
  constructor
  · intro h
    simp [runSetE, incrementalSteps, h]
  · intro h1 h2
    simp [runSetE, incrementalSteps, h1, h2]

/-- C5 counterexample: a run of sync_all_species.sh that starts with a
valid configuration (docker present, backend up, mode incremental) exits
with code 1 when the OBIS fetch fails mid-run, while the same
configuration exits 0 when every step succeeds: so a non-zero exit does
not only arise from configuration errors. -/
theorem partial_failure_exit_code_counterexample :
    (sync_all_species true true (some "incremental") "yes" okObisFails).2 = 1 ∧
    (sync_all_species true true (some "incremental") "yes"
       (fun _ => true)).2 = 0 := by
  decide

/-- C5 amended: the exit code of sync_all_species.sh is 0 exactly when
the configuration checks pass (docker-compose available, backend up,
valid mode, and for full mode the confirmation given) and every external
step of the dispatched script succeeds; configuration errors and mid-run
step failures both exit non-zero. -/
theorem exit_code_zero_iff_config_and_steps_ok
    (dockerAvailable backendUp : Bool) (arg : Option String)
    (confirm : String) (ok : Step → Bool) :
    (sync_all_species dockerAvailable backendUp arg confirm ok).2 = 0 ↔
      (dockerAvailable = true ∧ backendUp = true ∧
       ((arg.getD "incremental" = "incremental" ∧
           ∀ s ∈ incrementalSteps, ok s = true) ∨
        (arg.getD "incremental" = "full" ∧ confirm = "yes" ∧
           ∀ s ∈ fullRefreshSteps, ok s = true))) := by
  cases dockerAvailable with
  | false => simp [sync_all_species]
  | true =>
    cases backendUp with
    | false => simp [sync_all_species]
    | true =>
      by_cases h1 : arg.getD "incremental" = "incremental"
      · have : (("incremental" : String) = "full") = False := by
          simp
        simp [sync_all_species, h1, runSetE_exit_zero, this]
      · by_cases h2 : arg.getD "incremental" = "full"
        · by_cases h3 : confirm = "yes"
          · simp [sync_all_species, h1, h2, h3, fullRefreshRun,
              runSetE_exit_zero]
          · simp [sync_all_species, h1, h2, h3, fullRefreshRun]
        · simp [sync_all_species, h1, h2]

/-- C6 counterexample: no command of either sync script belongs to an
Enriching stage: the orchestrating scripts pass from FetchingGBIF
directly to Deduplicating, so the claimed stage sequence with Enriching
between them is not the one the scripts execute. -/
theorem no_enriching_stage_counterexample :
    Stage.Enriching ∉ fullRefreshSteps.map stageOf ∧
    Stage.Enriching ∉ incrementalSteps.map stageOf ∧
    collapseStages (fullRefreshSteps.map stageOf) =
      [Stage.ClearingPriorData, Stage.FetchingOBIS, Stage.FetchingGBIF,
       Stage.Deduplicating, Stage.Reporting] := by
  decide

/-- C6 amended: the scripts execute their stages strictly in the order
ClearingPriorData (full mode only), FetchingOBIS, FetchingGBIF,
Deduplicating, Reporting, one command at a time in list order with no
stage out of place; there is no separate Enriching stage. -/
theorem orchestrator_stage_order (ok : Step → Bool) :
    collapseStages (fullRefreshSteps.map stageOf) =
      [Stage.ClearingPriorData, Stage.FetchingOBIS, Stage.FetchingGBIF,
       Stage.Deduplicating, Stage.Reporting] ∧
    collapseStages (incrementalSteps.map stageOf) =
      [Stage.FetchingOBIS, Stage.FetchingGBIF, Stage.Deduplicating,
       Stage.Reporting] ∧
    (∃ k, (runSetE ok fullRefreshSteps).1 = fullRefreshSteps.take k) ∧
    (∃ k, (runSetE ok incrementalSteps).1 = incrementalSteps.take k) :=
  ⟨by decide, by decide,
   runSetE_executes_in_order ok fullRefreshSteps,
   runSetE_executes_in_order ok incrementalSteps⟩

/-- C7: a raw record whose depthMin key is absent normalizes to a
CuratedObservation candidate with depthMin null, never a zero default;
the same absence-to-null mapping holds for the other optional
environmental fields. -/
theorem normalizer_absent_maps_to_null (r : RawOccurrenceRecord)
    (c : NormalizedObservation) (h : normalizeRecord r = some c) :
    ("depthMin" ∉ r.payload.map Prod.fst →
       c.depthMin = none ∧ c.depthMin ≠ some 0) ∧
    ("depthMax" ∉ r.payload.map Prod.fst → c.depthMax = none) ∧
    ("bathymetry" ∉ r.payload.map Prod.fst → c.bathymetry = none) ∧
    ("temperature" ∉ r.payload.map Prod.fst →
       c.temperature = none ∧ c.temperature ≠ some 0) ∧
    ("visibility" ∉ r.payload.map Prod.fst → c.visibility = none) := by
  simp only [normalizeRecord] at h
  split at h
  · rename_i sp lon lat ts hsp hlon hlat hts
    injection h with h
    subst h
    refine ⟨?_, ?_, ?_, ?_, ?_⟩ <;> intro habs
    · rw [show optionalNumField r "depthMin" = none by
        simp [optionalNumField, lookup_none_of_key_absent r.payload _ habs]]
      exact ⟨rfl, by simp⟩
    · simp [optionalNumField, lookup_none_of_key_absent r.payload _ habs]
    · simp [optionalNumField, lookup_none_of_key_absent r.payload _ habs]
    · rw [show optionalNumField r "temperature" = none by
        simp [optionalNumField, lookup_none_of_key_absent r.payload _ habs]]
      exact ⟨rfl, by simp⟩
    · simp [optionalNumField, lookup_none_of_key_absent r.payload _ habs]
  · cases h

/-- C7 witness: the concrete payload without a depthMin key normalizes
with depthMin null while its present temperature field is kept. -/
theorem normalizer_absent_maps_to_null_witness :
    normalizedNoDepth.depthMin = none ∧
    normalizedNoDepth.depthMin ≠ some 0 ∧
    normalizedNoDepth.temperature = some 24 := by
  have h := normalizer_absent_maps_to_null rawRecordNoDepth normalizedNoDepth
    (by decide)
  exact ⟨(h.1 (by decide)).1, (h.1 (by decide)).2, by decide⟩

/-- C8: the frontend Observation type spells the OBIS source value in
lowercase, "obis", while the spec's data model and the clearing filters
of sync_full_refresh.sh use "OBIS": a row carrying the type-sanctioned
value "obis" is outside the claimed five-value set and survives the
full-mode clear untouched. -/
theorem source_union_spelling_mismatch :
    ("obis" ∈ tsObservationSourceValues ∧ "obis" ∉ specSourceValues) ∧
    ("OBIS" ∈ specSourceValues ∧ "OBIS" ∉ tsObservationSourceValues) ∧
    lowercaseObisRow.source = "obis" ∧
    clearPriorData [lowercaseObisRow] = [lowercaseObisRow] := by
  decide

/-- C9: any confirmation answer other than the exact string yes makes
sync_full_refresh.sh exit with status 1 with no command of the refresh
executed, so no delete or sync has run and the curated store is
untouched. -/
theorem full_refresh_confirmation_guard (confirm : String)
    (ok : Step → Bool) (h : confirm ≠ "yes") :
    fullRefreshRun confirm ok = ([], 1) := by
  simp [fullRefreshRun, h]

/-- C9 witness: the guard at the concrete answer "no". -/
theorem full_refresh_confirmation_guard_witness :
    fullRefreshRun "no" (fun _ => true) = ([], 1) :=
  full_refresh_confirmation_guard "no" (fun _ => true) (by decide)

/-- C10: sync_incremental.sh invokes the GBIF sync with limit 200; the
GBIF_MAX_RECORDS value 50000 appears only in the echoed log banner and in
no command's argument list. -/
theorem incremental_gbif_limit_is_200 :
    sync_incremental_commands.lookup "sync_gbif_by_oceans" =
      some ["--year", "2024", "--limit", "200"] ∧
    (∀ cmd ∈ sync_incremental_commands, toString GBIF_MAX_RECORDS ∉ cmd.2) ∧
    toString GBIF_MAX_RECORDS = "50000" ∧
    ("   Max Records: " ++ toString GBIF_MAX_RECORDS) ∈
      sync_incremental_gbif_banner := by
  refine ⟨by decide, by decide, by decide, by decide⟩

end MarineSync
